import Mathlib

/-!
Verification of the student-record CRUD service (`database.py`, `main.py`)
against its specification.

The persistent store (a single SQLite table with an auto-incrementing
primary key `id` and a UNIQUE constraint on `email`) is embedded as a list
of records in insertion order together with the next identity value.  Each
FastAPI route handler becomes a pure function from the incoming data and
the current store to an outcome and the next store.  `datetime.utcnow`
becomes an explicit `now` argument, and an unexpected store failure during
`INSERT` is injected through an explicit `fault` flag.
-/

/-- A row of the `users` table (`User` in `database.py`):
`id` integer primary key, `name`, `email` (UNIQUE), `age`,
`created_at` assigned at insertion time. -/
structure UserRecord where
  id : Nat
  name : String
  email : String
  age : Int
  created_at : Nat
deriving Repr, DecidableEq

/-- The pydantic `UserCreate` payload: `{name : str, email : str, age : int}`. -/
structure UserCreate where
  name : String
  email : String
  age : Int
deriving Repr, DecidableEq

/-- The relational store: rows in insertion order plus the value the
auto-incrementing identity column will assign next. -/
structure Store where
  users : List UserRecord
  nextId : Nat
deriving Repr, DecidableEq

def emptyStore : Store := ⟨[], 1⟩

/-- `True` iff a row with the given email is already present
(the UNIQUE constraint on `User.email` rejects the insert then). -/
def emailExists (st : Store) (e : String) : Bool :=
  st.users.any (fun u => u.email == e)

/-- Failures the store can raise while committing an `INSERT`: the UNIQUE
constraint violation on `email`, or an unexpected backend failure. -/
inductive StoreError where
  | emailConflict
  | unexpected
deriving Repr, DecidableEq

/-- `db.add(User(...)); db.commit()`: assigns the next identity value and
`created_at = now`, appends the row; fails if the email collides with an
existing row or the backend faults.  On failure nothing is persisted. -/
def insertUser (st : Store) (name email : String) (age : Int) (now : Nat)
    (fault : Bool) : Except StoreError (UserRecord × Store) :=
  if fault then .error .unexpected
  else if emailExists st email then .error .emailConflict
  else
    let u : UserRecord := ⟨st.nextId, name, email, age, now⟩
    .ok (u, ⟨st.users ++ [u], st.nextId + 1⟩)

/-- Outcome of a route handler: a successful body, an `HTTPException`
(status code and detail string), or an exception escaping the handler
uncaught (surfaced by the framework as a generic 500). -/
inductive HandlerResult (α : Type) where
  | ok : α → HandlerResult α
  | httpError : Nat → String → HandlerResult α
  | unhandled : HandlerResult α
deriving Repr, DecidableEq

/-- `POST /users/` handler body (`create_user` in `main.py`): try the
insert; `except Exception` maps every failure to
`HTTPException(400, "Failed to create user")`. -/
def create_user (u : UserCreate) (st : Store) (now : Nat) (fault : Bool) :
    HandlerResult UserRecord × Store :=
  match insertUser st u.name u.email u.age now fault with
  | .ok (r, st') => (.ok r, st')
  | .error _ => (.httpError 400 "Failed to create user", st)

/-- Default of the `skip` query parameter of `GET /users/`. -/
def default_skip : Nat := 0

/-- Default of the `limit` query parameter of `GET /users/`. -/
def default_limit : Nat := 100

/-- `GET /users/` handler (`get_users`):
`db.query(User).offset(skip).limit(limit).all()` — the rows in insertion
order, skipping `skip` and returning at most `limit`. -/
def get_users (skip limit : Nat) (st : Store) : List UserRecord × Store :=
  ((st.users.drop skip).take limit, st)

/-- `GET /users/` with both query parameters omitted. -/
def get_users_defaults (st : Store) : List UserRecord × Store :=
  get_users default_skip default_limit st

/-- `GET /users/{user_id}` handler (`get_user`):
`db.query(User).filter(User.id == user_id).first()`; `None` maps to
`HTTPException(404, "User not found")`. -/
def get_user (user_id : Nat) (st : Store) : HandlerResult UserRecord × Store :=
  match st.users.find? (fun u => u.id == user_id) with
  | none => (.httpError 404 "User not found", st)
  | some u => (.ok u, st)

/-- `PUT /users/{user_id}` handler (`update_user`): fetch by id, 404 if
absent; otherwise overwrite `name`/`email`/`age` and commit.  The handler
has no exception handling, so a UNIQUE-constraint violation raised by the
commit (the new email belongs to a different row) escapes uncaught and the
transaction leaves the table unchanged. -/
def update_user (user_id : Nat) (u : UserCreate) (st : Store) :
    HandlerResult UserRecord × Store :=
  match st.users.find? (fun r => r.id == user_id) with
  | none => (.httpError 404 "User not found", st)
  | some r =>
    if st.users.any (fun x => x.email == u.email && x.id != r.id) then
      (.unhandled, st)
    else
      let r' : UserRecord := { r with name := u.name, email := u.email, age := u.age }
      (.ok r', { st with users := st.users.map (fun x => if x.id == user_id then r' else x) })

/-- `DELETE /users/{user_id}` handler (`delete_user`): fetch by id, 404 if
absent; otherwise delete the row with that primary key and return the
confirmation message. -/
def delete_user (user_id : Nat) (st : Store) : HandlerResult String × Store :=
  match st.users.find? (fun r => r.id == user_id) with
  | none => (.httpError 404 "User not found", st)
  | some _ =>
    (.ok "User deleted successfully", { st with users := st.users.filter (fun r => r.id != user_id) })

/-- A JSON field value as far as the schema `{name: str, email: str, age: int}`
distinguishes them. -/
inductive JsonValue where
  | str : String → JsonValue
  | int : Int → JsonValue
  | null
deriving Repr, DecidableEq

/-- A raw request body before validation: each schema field either absent
or bound to some JSON value. -/
structure RawPayload where
  name : Option JsonValue
  email : Option JsonValue
  age : Option JsonValue
deriving Repr, DecidableEq

/-- Validation of a request body against the declared pydantic model
`UserBase` (`name: str, email: str, age: int`, all required): a missing
field or a field of the wrong declared type is rejected. -/
def validate_payload (p : RawPayload) : Except String UserCreate :=
  match p.name, p.email, p.age with
  | some (.str n), some (.str e), some (.int a) => .ok ⟨n, e, a⟩
  | _, _, _ => .error "field required or wrong type"

/-- `POST /users/` including the framework validation step: an invalid
body is answered with 422 before the handler (and hence the store) is
reached. -/
def create_user_raw (p : RawPayload) (st : Store) (now : Nat) (fault : Bool) :
    HandlerResult UserRecord × Store :=
  match validate_payload p with
  | .error m => (.httpError 422 m, st)
  | .ok u => create_user u st now fault

/-- `PUT /users/{user_id}` including the framework validation step. -/
def update_user_raw (user_id : Nat) (p : RawPayload) (st : Store) :
    HandlerResult UserRecord × Store :=
  match validate_payload p with
  | .error m => (.httpError 422 m, st)
  | .ok u => update_user user_id u st

/-- Well-formedness of a reachable store: row ids are pairwise distinct
and below the next identity value. -/
def Store.WF (st : Store) : Prop :=
  (st.users.map (·.id)).Nodup ∧ ∀ u ∈ st.users, u.id < st.nextId

instance (st : Store) : Decidable st.WF := by
  unfold Store.WF; infer_instance

/-! ## Helper lemmas -/

/-- In a well-formed store no row carries the identity value the store
would assign next. -/
theorem find?_nextId_eq_none (st : Store) (hwf : st.WF) :
    st.users.find? (fun u => u.id == st.nextId) = none := by
  rw [List.find?_eq_none]
  intro x hx
  simp only [beq_iff_eq]
  exact Nat.ne_of_lt (hwf.2 x hx)

/-! ## Claims -/

/-- C1: for every valid payload whose email is not already stored,
`create` succeeds and a subsequent `get` on the assigned id returns a
record equal to the payload plus the store-assigned `id` and
`created_at`. -/
theorem create_then_get_roundtrip (u : UserCreate) (st : Store) (now : Nat)
    (hwf : st.WF) (hne : emailExists st u.email = false) :
    ∃ r st', create_user u st now false = (.ok r, st') ∧
      get_user r.id st' = (.ok r, st') ∧
      r.name = u.name ∧ r.email = u.email ∧ r.age = u.age ∧
      r.id = st.nextId ∧ r.created_at = now := by
  refine ⟨⟨st.nextId, u.name, u.email, u.age, now⟩,
    ⟨st.users ++ [⟨st.nextId, u.name, u.email, u.age, now⟩], st.nextId + 1⟩,
    ?_, ?_, rfl, rfl, rfl, rfl, rfl⟩
  · simp [create_user, insertUser, hne]
  · simp [get_user, List.find?_append, find?_nextId_eq_none st hwf]

theorem create_then_get_roundtrip_witness :
    ∃ r st', create_user ⟨"John Doe", "john@example.com", 25⟩ emptyStore 5 false = (.ok r, st') ∧
      get_user r.id st' = (.ok r, st') ∧
      r.name = "John Doe" ∧ r.email = "john@example.com" ∧ r.age = 25 ∧
      r.id = emptyStore.nextId ∧ r.created_at = 5 :=
  create_then_get_roundtrip ⟨"John Doe", "john@example.com", 25⟩ emptyStore 5
    (by decide) (by decide)

/-- C2: creating a second record whose email equals that of an
already-stored record fails with the 400 conflict response, leaves the
store unchanged, and the store then holds exactly one record with that
email. -/
theorem duplicate_email_second_create_fails (u1 u2 : UserCreate) (st : Store)
    (now1 now2 : Nat)
    (hne : emailExists st u1.email = false) (heq : u2.email = u1.email) :
    ∃ r1 st1, create_user u1 st now1 false = (.ok r1, st1) ∧
      create_user u2 st1 now2 false = (.httpError 400 "Failed to create user", st1) ∧
      st1.users.countP (fun x => x.email == u1.email) = 1 := by
  refine ⟨⟨st.nextId, u1.name, u1.email, u1.age, now1⟩,
    ⟨st.users ++ [⟨st.nextId, u1.name, u1.email, u1.age, now1⟩], st.nextId + 1⟩,
    ?_, ?_, ?_⟩
  · simp [create_user, insertUser, hne]
  · have hex : emailExists
        ⟨st.users ++ [⟨st.nextId, u1.name, u1.email, u1.age, now1⟩], st.nextId + 1⟩
        u2.email = true := by
      simp [emailExists, heq]
    simp [create_user, insertUser, hex]
  · have h0 : st.users.countP (fun x => x.email == u1.email) = 0 := by
      rw [List.countP_eq_zero]
      exact List.any_eq_false.mp hne
    simp [List.countP_append, h0, List.countP_cons]

theorem duplicate_email_second_create_fails_witness :
    ∃ r1 st1,
      create_user ⟨"A", "a@x.com", 1⟩ emptyStore 3 false = (.ok r1, st1) ∧
      create_user ⟨"B", "a@x.com", 2⟩ st1 7 false
        = (.httpError 400 "Failed to create user", st1) ∧
      st1.users.countP (fun x => x.email == "a@x.com") = 1 :=
  duplicate_email_second_create_fails ⟨"A", "a@x.com", 1⟩ ⟨"B", "a@x.com", 2⟩
    emptyStore 3 7 (by decide) rfl

/-- C10: the read operations `get_user` and `get_users` return the store
they were given, whether or not the lookup succeeds: no record is
created, mutated or deleted by a read. -/
theorem reads_leave_store_unchanged (st : Store) (user_id skip limit : Nat) :
    (get_user user_id st).2 = st ∧ (get_users skip limit st).2 = st := by
  refine ⟨?_, rfl⟩
  unfold get_user
  cases h : st.users.find? (fun u => u.id == user_id) <;> simp

/-- C3: a successful update of an existing record keeps its `id` and
`created_at`, overwrites exactly `name`/`email`/`age`, keeps every other
record in the store, and does not touch the identity counter. -/
theorem update_preserves_id_created_at (user_id : Nat) (u : UserCreate)
    (st : Store) (r : UserRecord)
    (hfind : st.users.find? (fun x => x.id == user_id) = some r)
    (hnc : (st.users.any fun x => x.email == u.email && x.id != r.id) = false) :
    ∃ r' st', update_user user_id u st = (.ok r', st') ∧
      r'.id = r.id ∧ r'.created_at = r.created_at ∧
      r'.name = u.name ∧ r'.email = u.email ∧ r'.age = u.age ∧
      st'.nextId = st.nextId ∧
      ∀ x ∈ st.users, x.id ≠ user_id → x ∈ st'.users := by
  refine ⟨{ r with name := u.name, email := u.email, age := u.age },
    { st with users := st.users.map (fun x =>
        if x.id == user_id then { r with name := u.name, email := u.email, age := u.age }
        else x) },
    ?_, rfl, rfl, rfl, rfl, rfl, rfl, ?_⟩
  · simp [update_user, hfind, hnc]
  · intro x hx hne
    have hfx : (fun y =>
        if y.id == user_id then { r with name := u.name, email := u.email, age := u.age }
        else y) x = x := by
      simp [hne]
    exact List.mem_map.mpr ⟨x, hx, hfx⟩

theorem update_preserves_id_created_at_witness :
    ∃ r' st',
      update_user 1 ⟨"Jane", "jane@x.com", 30⟩
        ⟨[⟨1, "John", "john@x.com", 25, 4⟩, ⟨2, "Bob", "bob@x.com", 40, 6⟩], 3⟩
        = (.ok r', st') ∧
      r'.id = (⟨1, "John", "john@x.com", 25, 4⟩ : UserRecord).id ∧
      r'.created_at = (⟨1, "John", "john@x.com", 25, 4⟩ : UserRecord).created_at ∧
      r'.name = "Jane" ∧ r'.email = "jane@x.com" ∧ r'.age = 30 ∧
      st'.nextId = 3 ∧
      ∀ x ∈ [⟨1, "John", "john@x.com", 25, 4⟩, (⟨2, "Bob", "bob@x.com", 40, 6⟩ : UserRecord)],
        x.id ≠ 1 → x ∈ st'.users :=
  update_preserves_id_created_at 1 ⟨"Jane", "jane@x.com", 30⟩
    ⟨[⟨1, "John", "john@x.com", 25, 4⟩, ⟨2, "Bob", "bob@x.com", 40, 6⟩], 3⟩
    ⟨1, "John", "john@x.com", 25, 4⟩ (by decide) (by decide)

/-- C4: `get` on an id the store never issued returns the 404 response,
and `delete` followed by `get` on the same id returns the 404 response,
whether or not the delete found the record. -/
theorem get_unissued_and_get_after_delete_notfound (st : Store) (idA idB : Nat)
    (hwf : st.WF) (hA : st.nextId ≤ idA) :
    get_user idA st = (.httpError 404 "User not found", st) ∧
    get_user idB (delete_user idB st).2
      = (.httpError 404 "User not found", (delete_user idB st).2) := by
  constructor
  · have hnone : st.users.find? (fun u => u.id == idA) = none := by
      rw [List.find?_eq_none]
      intro x hx
      simp only [beq_iff_eq]
      exact Nat.ne_of_lt (Nat.lt_of_lt_of_le (hwf.2 x hx) hA)
    simp [get_user, hnone]
  · unfold delete_user
    cases hfind : st.users.find? (fun r => r.id == idB) with
    | none => simp [get_user, hfind]
    | some r =>
      have hnone : (st.users.filter (fun r => r.id != idB)).find?
          (fun u => u.id == idB) = none := by
        rw [List.find?_filter, List.find?_eq_none]
        intro x _
        simp
      simp [get_user, hnone]

theorem get_unissued_and_get_after_delete_notfound_witness :
    get_user 9 ⟨[⟨1, "John", "john@x.com", 25, 4⟩], 2⟩
      = (.httpError 404 "User not found", ⟨[⟨1, "John", "john@x.com", 25, 4⟩], 2⟩) ∧
    get_user 1 (delete_user 1 ⟨[⟨1, "John", "john@x.com", 25, 4⟩], 2⟩).2
      = (.httpError 404 "User not found",
         (delete_user 1 ⟨[⟨1, "John", "john@x.com", 25, 4⟩], 2⟩).2) :=
  get_unissued_and_get_after_delete_notfound ⟨[⟨1, "John", "john@x.com", 25, 4⟩], 2⟩
    9 1 (by decide) (by decide)

/-- C5: listing an empty store yields the empty sequence; `list(0, N)` on a
store of N records returns them all in creation order; in general the
result is the slice of the creation-ordered sequence starting at `skip`
with at most `limit` elements; omitted parameters default to `skip = 0`,
`limit = 100`. -/
theorem list_returns_ordered_slice (st : Store) (skip limit : Nat) :
    (∀ n : Nat, get_users skip limit ⟨[], n⟩ = ([], ⟨[], n⟩)) ∧
    get_users 0 st.users.length st = (st.users, st) ∧
    (get_users skip limit st).1.length ≤ limit ∧
    (∀ i : Nat, (get_users skip limit st).1[i]?
        = if i < limit then st.users[skip + i]? else none) ∧
    get_users_defaults st = get_users 0 100 st ∧
    default_skip = 0 ∧ default_limit = 100 := by
  refine ⟨?_, ?_, ?_, ?_, rfl, rfl, rfl⟩
  · intro n
    simp [get_users]
  · simp [get_users]
  · exact List.length_take_le _ _
  · intro i
    simp [get_users, List.getElem?_take, List.getElem?_drop]

/-- C6: a create or update body that fails schema validation (a required
field missing or of the wrong type) is answered with 422 and the store is
returned unchanged — the handler, and hence the store, is never
reached. -/
theorem invalid_payload_rejected_store_unchanged (p : RawPayload) (st : Store)
    (now : Nat) (fault : Bool) (user_id : Nat) (m : String)
    (hinv : validate_payload p = .error m) :
    create_user_raw p st now fault = (.httpError 422 m, st) ∧
    update_user_raw user_id p st = (.httpError 422 m, st) := by
  constructor <;> simp [create_user_raw, update_user_raw, hinv]

theorem invalid_payload_rejected_store_unchanged_witness :
    create_user_raw ⟨none, some (.str "a@x.com"), some (.int 25)⟩ emptyStore 0 false
      = (.httpError 422 "field required or wrong type", emptyStore) ∧
    update_user_raw 1 ⟨none, some (.str "a@x.com"), some (.int 25)⟩ emptyStore
      = (.httpError 422 "field required or wrong type", emptyStore) :=
  invalid_payload_rejected_store_unchanged ⟨none, some (.str "a@x.com"), some (.int 25)⟩
    emptyStore 0 false 1 "field required or wrong type" rfl

/-- C7 counterexample: an unexpected store failure during create (the
`fault` flag, a failure that is neither validation, unknown id, nor
duplicate email) is surfaced by `create_user` as status 400 with the
generic create detail — not as a 500 internal error as the claim
states. -/
theorem create_unexpected_failure_is_400_not_500 :
    (create_user ⟨"John Doe", "john@example.com", 25⟩ emptyStore 0 true).1
      = .httpError 400 "Failed to create user" ∧
    (create_user ⟨"John Doe", "john@example.com", 25⟩ emptyStore 0 true).1
      ≠ .httpError 500 "Internal Server Error" := by
  exact ⟨rfl, by decide⟩

/-- C7 amended: in the create handler every store failure — the
duplicate-email conflict and the unexpected failure alike — is surfaced
as status 400 with the generic detail string, the store left unchanged;
no failure of create is surfaced as 500. -/
theorem create_any_failure_maps_to_400 (u : UserCreate) (st : Store)
    (now : Nat) (fault : Bool)
    (h : fault = true ∨ emailExists st u.email = true) :
    create_user u st now fault = (.httpError 400 "Failed to create user", st) := by
  rcases h with h | h
  · simp [create_user, insertUser, h]
  · cases fault <;> simp [create_user, insertUser, h]

theorem create_any_failure_maps_to_400_witness :
    create_user ⟨"John Doe", "john@example.com", 25⟩ emptyStore 0 true
      = (.httpError 400 "Failed to create user", emptyStore) :=
  create_any_failure_maps_to_400 ⟨"John Doe", "john@example.com", 25⟩ emptyStore 0 true
    (Or.inl rfl)

/-- C8 counterexample: a create body whose `name` is the empty string is
not rejected — it passes validation and the record is created with the
empty name, because the pydantic model declares `name: str` with no
non-emptiness constraint. -/
theorem empty_name_passes_validation :
    validate_payload ⟨some (.str ""), some (.str "john@example.com"), some (.int 25)⟩
      = .ok ⟨"", "john@example.com", 25⟩ ∧
    create_user_raw ⟨some (.str ""), some (.str "john@example.com"), some (.int 25)⟩
        emptyStore 0 false
      = (.ok ⟨1, "", "john@example.com", 25, 0⟩,
         ⟨[⟨1, "", "john@example.com", 25, 0⟩], 2⟩) := by
  exact ⟨rfl, rfl⟩

/-- C8 amended: a create payload with empty-string `name`, a fresh email
and an integer age passes validation and creates a record whose name is
the empty string: the validation layer enforces only presence and type,
not non-emptiness. -/
theorem empty_name_creates_record (e : String) (a : Int) (st : Store) (now : Nat)
    (hne : emailExists st e = false) :
    ∃ r st', create_user_raw ⟨some (.str ""), some (.str e), some (.int a)⟩ st now false
      = (.ok r, st') ∧ r.name = "" := by
  refine ⟨⟨st.nextId, "", e, a, now⟩,
    ⟨st.users ++ [⟨st.nextId, "", e, a, now⟩], st.nextId + 1⟩, ?_, rfl⟩
  simp [create_user_raw, validate_payload, create_user, insertUser, hne]

theorem empty_name_creates_record_witness :
    ∃ r st',
      create_user_raw ⟨some (.str ""), some (.str "x@y.com"), some (.int 7)⟩ emptyStore 2 false
        = (.ok r, st') ∧ r.name = "" :=
  empty_name_creates_record "x@y.com" 7 emptyStore 2 (by decide)

/-- C9: updating an existing record to an email held by a distinct record
is not mapped to a 400/Conflict by the update handler — the uniqueness
violation escapes the handler unhandled, and the store (in particular the
target record) is left unchanged. -/
theorem update_email_conflict_escapes_unhandled (user_id : Nat) (u : UserCreate)
    (st : Store) (r x : UserRecord)
    (hfind : st.users.find? (fun y => y.id == user_id) = some r)
    (hx : x ∈ st.users) (hemail : x.email = u.email) (hne : x.id ≠ r.id) :
    update_user user_id u st = (.unhandled, st) ∧
    ∀ code d, (update_user user_id u st).1 ≠ .httpError code d := by
  have hany : (st.users.any fun y => y.email == u.email && y.id != r.id) = true := by
    rw [List.any_eq_true]
    exact ⟨x, hx, by simp [hemail, hne]⟩
  have heq : update_user user_id u st = (.unhandled, st) := by
    simp [update_user, hfind, hany]
  exact ⟨heq, by rw [heq]; intro code d; simp⟩

theorem update_email_conflict_escapes_unhandled_witness :
    update_user 1 ⟨"John", "bob@x.com", 25⟩
      ⟨[⟨1, "John", "john@x.com", 25, 4⟩, ⟨2, "Bob", "bob@x.com", 40, 6⟩], 3⟩
      = (.unhandled, ⟨[⟨1, "John", "john@x.com", 25, 4⟩, ⟨2, "Bob", "bob@x.com", 40, 6⟩], 3⟩) ∧
    ∀ code d,
      (update_user 1 ⟨"John", "bob@x.com", 25⟩
        ⟨[⟨1, "John", "john@x.com", 25, 4⟩, ⟨2, "Bob", "bob@x.com", 40, 6⟩], 3⟩).1
        ≠ .httpError code d :=
  update_email_conflict_escapes_unhandled 1 ⟨"John", "bob@x.com", 25⟩
    ⟨[⟨1, "John", "john@x.com", 25, 4⟩, ⟨2, "Bob", "bob@x.com", 40, 6⟩], 3⟩
    ⟨1, "John", "john@x.com", 25, 4⟩ ⟨2, "Bob", "bob@x.com", 40, 6⟩
    (by decide) (by decide) rfl (by decide)
